import Mathlib

/-!
Shallow embedding of the ureq request-construction core (src/error.rs,
src/body.rs, src/request.rs) together with the minimal models of its
external collaborators (the http crate's request builder and URI parser,
and the execution engine entry point) needed to settle the claims.

Machine bytes are modelled as Nat, Rust strings as Lean String, and
fallible operations as Except/Option.  Rust lifetimes are erased; the
borrowed/owned distinction of body.rs is kept as distinct constructors.
-/

deriving instance DecidableEq for Except

namespace Ureq

/-- Kind discriminator of a std io Error, restricted to the kinds the
source constructs (ErrorKind Other in into_io, UnexpectedEof in
Error::disconnected). -/
inductive IoErrorKind
  | other
  | unexpectedEof
deriving DecidableEq, Repr

/-- Model of a std io Error: its kind and the text its Display produces. -/
structure IoError where
  kind : IoErrorKind
  msg : String
deriving DecidableEq, Repr

/-- Model of an http crate Error (the message is its Display text, e.g.
"invalid format", "invalid HTTP header name"). -/
structure HttpError where
  msg : String
deriving DecidableEq, Repr

/-- Motivation for an Error.Timeout, translated from enum TimeoutReason
in src/error.rs. -/
inductive TimeoutReason
  | Global
  | Resolver
  | OpenConnection
  | SendRequest
  | SendBody
  | Await100
  | RecvResponse
  | RecvBody
deriving DecidableEq, Repr

/-- Display implementation for TimeoutReason, translated from
impl fmt Display for TimeoutReason in src/error.rs. -/
def TimeoutReason.display : TimeoutReason → String
  | .Global => "global"
  | .Resolver => "resolver"
  | .OpenConnection => "open connection"
  | .SendRequest => "send request"
  | .SendBody => "send body"
  | .Await100 => "await 100"
  | .RecvResponse => "receive response"
  | .RecvBody => "receive body"

/-- Errors from ureq, translated from enum Error in src/error.rs.
Wrapped collaborator error types (hoot, rustls, native-tls, der,
cookie_store, rustls_pemfile) are modelled by the String their Display
(or Debug, for Pem) rendering produces.  Feature-gated cases are all
included, as when their feature is enabled. -/
inductive Error
  | Http (e : HttpError)
  | BadUri (s : String)
  | Protocol (s : String)
  | Io (e : IoError)
  | Timeout (r : TimeoutReason)
  | HostNotFound
  | RedirectFailed
  | InvalidProxyUrl
  | ConnectionFailed
  | BodyExceedsLimit
  | Tls (s : String)
  | Pem (s : String)
  | Rustls (s : String)
  | NativeTls (s : String)
  | Der (s : String)
  | Cookie (s : String)
  | CookieValue (s : String)
  | CookieJar (s : String)
  | UnknownCharset (s : String)
deriving DecidableEq, Repr

/-- Display text of an Error, translated from the thiserror error
attributes on enum Error in src/error.rs. -/
def Error.display : Error → String
  | .Http e => "http: " ++ e.msg
  | .BadUri s => "bad uri: " ++ s
  | .Protocol s => "protocol: " ++ s
  | .Io e => "io: " ++ e.msg
  | .Timeout r => "timeout: " ++ r.display
  | .HostNotFound => "host not found"
  | .RedirectFailed => "redirect failed"
  | .InvalidProxyUrl => "invalid proxy url"
  | .ConnectionFailed => "connection failed"
  | .BodyExceedsLimit => "the response body is larger than request limit"
  | .Tls s => s
  | .Pem s => "PEM: " ++ s
  | .Rustls s => "rustls: " ++ s
  | .NativeTls s => "native-tls: " ++ s
  | .Der s => "der: " ++ s
  | .Cookie s => "cookie: " ++ s
  | .CookieValue s => s
  | .CookieJar s => "cookie: " ++ s
  | .UnknownCharset s => "unknown character set: " ++ s

/-- Conversion of an Error into a std io Error, translated from
Error::into_io in src/error.rs: the Io case is unpacked, every other
case becomes a new io error of kind Other wrapping self (whose Display
text is the Display text of self). -/
def Error.into_io : Error → IoError
  | .Io e => e
  | e => { kind := IoErrorKind.other, msg := e.display }

/-- Internal constructor for the peer-disconnected condition, translated
from Error::disconnected in src/error.rs. -/
def Error.disconnected : Error :=
  .Io { kind := IoErrorKind.unexpectedEof, msg := "Peer disconnected" }

/-- UTF-8 encoding of a unicode scalar value, modelling what Rust's
str::as_bytes exposes for one character. -/
def utf8EncodeNat (n : Nat) : List Nat :=
  if n < 128 then [n]
  else if n < 2048 then [192 + n / 64, 128 + n % 64]
  else if n < 65536 then [224 + n / 4096, 128 + (n / 64) % 64, 128 + n % 64]
  else [240 + n / 262144, 128 + (n / 4096) % 64, 128 + (n / 64) % 64, 128 + n % 64]

/-- Byte sequence of a string, modelling str::as_bytes / String::as_ref
as the UTF-8 encoding of its characters. -/
def utf8Bytes (s : String) : List Nat :=
  s.data.flatMap (fun c => utf8EncodeNat c.toNat)

/-- State of one readable device (a file, TCP socket, stdin handle or
unix socket): its byte contents, the current read position, and a
counter of how many read calls have touched the device.  The counter is
instrumentation used to state that conversions perform no I/O. -/
structure Device where
  data : List Nat
  pos : Nat
  reads : Nat
deriving DecidableEq, Repr

/-- World of readable devices, addressed by a numeric handle.  Rust's
ambient I/O world is threaded explicitly through reads. -/
abbrev Store : Type := Nat → Device

/-- Identity of the readable device behind a BodyInner Reader or
OwnedReader: either a real device handle, or the RecvBody placeholder
whose read implementation is left as todo in src/body.rs. -/
inductive ReaderSrc
  | device (id : Nat)
  | recvBody
deriving DecidableEq, Repr

/-- Payload source variants, translated from enum BodyInner in
src/body.rs (lifetimes erased; ByteSlice bytes copied into the model). -/
inductive BodyInner
  | ByteSlice (bytes : List Nat)
  | Reader (src : ReaderSrc)
  | OwnedReader (src : ReaderSrc)
deriving DecidableEq, Repr

/-- Body, translated from struct Body in src/body.rs: a payload source
and the ended (exhausted) flag. -/
structure Body where
  inner : BodyInner
  ended : Bool
deriving DecidableEq, Repr

/-- Conversion of a BodyInner into a Body, translated from the
From BodyInner impl in src/body.rs: the ended flag starts false. -/
def Body.fromInner (inner : BodyInner) : Body :=
  { inner := inner, ended := false }

/-- Body::empty from src/body.rs: a byte-slice Body over the shared
static empty slice. -/
def Body.empty : Body :=
  Body.fromInner (.ByteSlice [])

/-- Body::from_reader from src/body.rs. -/
def Body.from_reader (src : ReaderSrc) : Body :=
  Body.fromInner (.Reader src)

/-- Body::from_owned_reader from src/body.rs. -/
def Body.from_owned_reader (src : ReaderSrc) : Body :=
  Body.fromInner (.OwnedReader src)

/-- One read call against a device: takes up to n bytes from the current
position, advances the position, and bumps the read counter.  Returns
the bytes read, the updated store, and whether the device is exhausted
after the read. -/
def readDevice (d : Nat) (st : Store) (n : Nat) : List Nat × Store × Bool :=
  let dev := st d
  let taken := (dev.data.drop dev.pos).take n
  let newPos := dev.pos + taken.length
  let dev2 : Device := { data := dev.data, pos := newPos, reads := dev.reads + 1 }
  let st2 : Store := fun i => if i = d then dev2 else st i
  (taken, st2, (dev.data.drop newPos).isEmpty)

/-- Modelled from the spec: the sequential read-to-completion interface
of Body (section 4.1; no Read impl for Body is under src/).  An already
ended Body returns zero bytes without touching any device; a byte-slice
Body hands out its bytes and becomes ended once drained (so the empty
slice is ended by its first read, with no device access); a streaming
Body pulls from its device and becomes ended when the device has no
bytes left.  Reading the RecvBody placeholder is todo in src/body.rs
and is modelled as none (a panic). -/
def Body.read (b : Body) (st : Store) (n : Nat) : Option (List Nat × Body × Store) :=
  if b.ended then some ([], b, st)
  else
    match b.inner with
    | .ByteSlice bs =>
        let taken := bs.take n
        let rest := bs.drop n
        some (taken, { inner := .ByteSlice rest, ended := rest.isEmpty }, st)
    | .Reader (.device d) =>
        let r := readDevice d st n
        some (r.1, { inner := .Reader (.device d), ended := r.2.2 }, r.2.1)
    | .Reader .recvBody => none
    | .OwnedReader (.device d) =>
        let r := readDevice d st n
        some (r.1, { inner := .OwnedReader (.device d), ended := r.2.2 }, r.2.1)
    | .OwnedReader .recvBody => none

/-- The closed set of types implementing the AsBody conversion
capability, enumerated from the impl_into_body_slice and impl_into_body
macro invocations and the Response RecvBody impl in src/body.rs.  Byte
and text sources carry their contents; readable devices carry their
handle. -/
inductive SendSource
  | byteSliceRef (bytes : List Nat)
  | strRef (s : String)
  | stringOwned (s : String)
  | vecOwned (bytes : List Nat)
  | stringRef (s : String)
  | vecRef (bytes : List Nat)
  | fileRef (dev : Nat)
  | tcpStreamRef (dev : Nat)
  | stdinRef (dev : Nat)
  | fileOwned (dev : Nat)
  | tcpStreamOwned (dev : Nat)
  | stdinOwned (dev : Nat)
  | unixStream (dev : Nat)
  | recvBody
  | responseRecvBody
deriving DecidableEq, Repr

/-- Conversion of a source into a Body, translated from the AsBody
impls in src/body.rs.  The byte and text impls build
BodyInner::ByteSlice from as_ref bytes; every impl generated by
impl_into_body builds BodyInner::Reader from a mutable borrow of self
(also for sources passed by value, since as_body takes self by mutable
reference), and the Response RecvBody impl wraps body_mut, also a
Reader. -/
def SendSource.as_body : SendSource → Body
  | .byteSliceRef bytes => Body.fromInner (.ByteSlice bytes)
  | .strRef s => Body.fromInner (.ByteSlice (utf8Bytes s))
  | .stringOwned s => Body.fromInner (.ByteSlice (utf8Bytes s))
  | .vecOwned bytes => Body.fromInner (.ByteSlice bytes)
  | .stringRef s => Body.fromInner (.ByteSlice (utf8Bytes s))
  | .vecRef bytes => Body.fromInner (.ByteSlice bytes)
  | .fileRef d => Body.fromInner (.Reader (.device d))
  | .tcpStreamRef d => Body.fromInner (.Reader (.device d))
  | .stdinRef d => Body.fromInner (.Reader (.device d))
  | .fileOwned d => Body.fromInner (.Reader (.device d))
  | .tcpStreamOwned d => Body.fromInner (.Reader (.device d))
  | .stdinOwned d => Body.fromInner (.Reader (.device d))
  | .unixStream d => Body.fromInner (.Reader (.device d))
  | .recvBody => Body.fromInner (.Reader .recvBody)
  | .responseRecvBody => Body.fromInner (.Reader .recvBody)

/-- World-threaded view of as_body: the source of each AsBody impl in
src/body.rs contains no read call, so the device store passes through
untouched. -/
def SendSource.as_body_io (s : SendSource) (st : Store) : Body × Store :=
  (s.as_body, st)

/-- Classifier: whether a source is one of the six byte-buffer forms
(the impl_into_body_slice invocations in src/body.rs). -/
def SendSource.isBufferSource : SendSource → Bool
  | .byteSliceRef _ => true
  | .strRef _ => true
  | .stringOwned _ => true
  | .vecOwned _ => true
  | .stringRef _ => true
  | .vecRef _ => true
  | _ => false

/-- Bytes carried by a buffer source (empty for streaming sources). -/
def SendSource.sourceBytes : SendSource → List Nat
  | .byteSliceRef bytes => bytes
  | .strRef s => utf8Bytes s
  | .stringOwned s => utf8Bytes s
  | .vecOwned bytes => bytes
  | .stringRef s => utf8Bytes s
  | .vecRef bytes => bytes
  | _ => []

/-- Device handle behind a streaming source, when it has one. -/
def SendSource.deviceOf : SendSource → Option Nat
  | .fileRef d => some d
  | .tcpStreamRef d => some d
  | .stdinRef d => some d
  | .fileOwned d => some d
  | .tcpStreamOwned d => some d
  | .stdinOwned d => some d
  | .unixStream d => some d
  | _ => none

/-- Variant classification of a Body's payload source. -/
inductive VariantKind
  | byteBuffer
  | borrowedStream
  | ownedStream
deriving DecidableEq, Repr

/-- Variant of a Body. -/
def Body.variant (b : Body) : VariantKind :=
  match b.inner with
  | .ByteSlice _ => .byteBuffer
  | .Reader _ => .borrowedStream
  | .OwnedReader _ => .ownedStream

/-- Routing table following the words of the claim (for comparison with
the source conversion): buffer forms go to the byte-buffer variant, and
streaming sources go to the borrowed streaming variant when passed by
reference but to the owned streaming variant when passed by value. -/
def claimRouteSpec : SendSource → VariantKind
  | .byteSliceRef _ => .byteBuffer
  | .strRef _ => .byteBuffer
  | .stringOwned _ => .byteBuffer
  | .vecOwned _ => .byteBuffer
  | .stringRef _ => .byteBuffer
  | .vecRef _ => .byteBuffer
  | .fileRef _ => .borrowedStream
  | .tcpStreamRef _ => .borrowedStream
  | .stdinRef _ => .borrowedStream
  | .fileOwned _ => .ownedStream
  | .tcpStreamOwned _ => .ownedStream
  | .stdinOwned _ => .ownedStream
  | .unixStream _ => .ownedStream
  | .recvBody => .ownedStream
  | .responseRecvBody => .ownedStream

/-- Model of an http crate Uri: optional scheme and host (the whole
authority is kept as the host; userinfo and ports are not split off,
which none of the claims need) and the path. -/
structure Uri where
  scheme : Option String
  host : Option String
  path : String
deriving DecidableEq, Repr

/-- Splits a character list at the first occurrence of the three
characters colon slash slash, returning the part before and after. -/
def splitScheme : List Char → Option (List Char × List Char)
  | ':' :: '/' :: '/' :: rest => some ([], rest)
  | c :: rest => (splitScheme rest).map (fun p => (c :: p.1, p.2))
  | [] => none

/-- Model of the external http crate's URI parser, restricted to the
shapes the claims exercise: a string without a scheme separator parses
as a path-only Uri (no scheme, no host) as the http crate accepts; a
string with a scheme separator must have a non-empty authority, and an
empty authority (as in a local-file-style URI) is rejected with the
http crate's "invalid format" error, matching the in-repo test
disallow_empty_host in src/request.rs. -/
def parseUri (s : String) : Except HttpError Uri :=
  match splitScheme s.data with
  | none => .ok { scheme := none, host := none, path := s }
  | some (schemeChars, rest) =>
      let authority := rest.takeWhile (fun c => c ≠ '/')
      let path := rest.dropWhile (fun c => c ≠ '/')
      if schemeChars.isEmpty || authority.isEmpty then
        .error { msg := "invalid format" }
      else
        .ok { scheme := some (String.mk schemeChars)
              host := some (String.mk authority)
              path := if path.isEmpty then "/" else String.mk path }

/-- Lowercases one ASCII character, modelling the http crate's header
name normalization. -/
def lowerChar (c : Char) : Char :=
  if 65 ≤ c.toNat && c.toNat ≤ 90 then Char.ofNat (c.toNat + 32) else c

/-- Lowercases a string character-wise. -/
def lowerStr (s : String) : String := String.mk (s.data.map lowerChar)

/-- Model of the http crate's header name validation: non-empty and
built from a token alphabet (letters, digits, dash, underscore, dot in
this model); a space, as in the inputs the claims exercise, is
invalid. -/
def validHeaderName (s : String) : Bool :=
  !s.data.isEmpty && s.data.all (fun c =>
    c.isAlpha || c.isDigit || c = '-' || c = '_' || c = '.')

/-- Model of the http crate's header value validation: no control
characters except horizontal tab. -/
def validHeaderValue (s : String) : Bool :=
  s.data.all (fun c => (32 ≤ c.toNat && c.toNat ≠ 127) || c = '\t')

/-- Version of a request, modelling http crate Version. -/
inductive Version
  | http09
  | http10
  | http11
  | http2
  | http3
deriving DecidableEq, Repr

/-- Finalized request metadata, modelling http crate request Parts:
method, target URI, version and the appended header list. -/
structure Parts where
  method : String
  uri : Uri
  version : Version
  headers : List (String × String)
deriving DecidableEq, Repr

/-- State of an http crate request Builder: the parts built so far, or
the first error any builder operation ran into.  The http crate stores
that error and surfaces it when body is called, rather than returning
it from the operation that received the invalid value. -/
abbrev HttpBuilder : Type := Except HttpError Parts

/-- Parts produced by http Request::builder(): method GET, path-only
root URI, version HTTP/1.1, no headers. -/
def defaultParts : Parts :=
  { method := "GET", uri := { scheme := none, host := none, path := "/" }
    version := Version.http11, headers := [] }

/-- Model of http Builder::method: replaces the method.  Methods reach
this model as strings taken from the typed http Method values the
source passes, so no validation applies. -/
def HttpBuilder.method (b : HttpBuilder) (m : String) : HttpBuilder :=
  match b with
  | .error e => .error e
  | .ok p => .ok { p with method := m }

/-- Model of http Builder::header: on a clean builder, validates the
name and value and appends the lowercased-name pair (append, never
replace); an invalid name or value becomes the stored builder error.
On an already errored builder the error is kept. -/
def HttpBuilder.header (b : HttpBuilder) (k v : String) : HttpBuilder :=
  match b with
  | .error e => .error e
  | .ok p =>
      if validHeaderName k then
        if validHeaderValue v then
          .ok { p with headers := p.headers ++ [(lowerStr k, v)] }
        else .error { msg := "invalid HTTP header value" }
      else .error { msg := "invalid HTTP header name" }

/-- Model of http Builder::uri: replaces the target URI, storing the
parse error of an invalid one. -/
def HttpBuilder.uri (b : HttpBuilder) (u : String) : HttpBuilder :=
  match b with
  | .error e => .error e
  | .ok p =>
      match parseUri u with
      | .error e => .error e
      | .ok uri => .ok { p with uri := uri }

/-- Model of http Builder::version: replaces the version; a Version
value cannot fail validation. -/
def HttpBuilder.version (b : HttpBuilder) (v : Version) : HttpBuilder :=
  match b with
  | .error e => .error e
  | .ok p => .ok { p with version := v }

/-- Model of http Builder::body (with a unit body): returns the built
parts, or the first stored error. -/
def HttpBuilder.toBody (b : HttpBuilder) : Except HttpError Parts := b

/-- Compile-time phase of a request builder. -/
inductive Phase
  | withoutBody
  | withBody
deriving DecidableEq, Repr

/-- Phase tag for body-less methods, translated from the zero-size
struct WithoutBody in src/request.rs. -/
structure WithoutBody where
  val : Unit

/-- Phase tag for body-bearing methods, translated from the zero-size
struct WithBody in src/request.rs. -/
structure WithBody where
  val : Unit

/-- Response metadata returned by the execution engine. -/
structure HttpResponse where
  status : Nat
deriving DecidableEq, Repr

/-- Execution engine entry point as the terminal operations see it:
given finalized request parts and a body, it returns a response or an
Error, together with the number of network operations it performed.
The Agent handle owned by the builder in src/request.rs is represented
by passing the engine to the terminal operation. -/
abbrev EngineM : Type := Parts → Body → Except Error HttpResponse × Nat

/-- RequestBuilder from src/request.rs: a wrapper around the http
request builder, with the zero-size compile-time phase as a type
index.  The Agent field is represented by the engine argument of the
terminal operations. -/
structure RequestBuilder (p : Phase) where
  builder : HttpBuilder

/-- RequestBuilder::new (both phase impls share this body in
src/request.rs): Request::builder().method(method).uri(uri). -/
def RequestBuilder.new (p : Phase) (method : String) (u : String) : RequestBuilder p :=
  { builder := (HttpBuilder.method (.ok defaultParts) method).uri u }

/-- Modelled from the spec: the crate-root helper get (lib.rs is not
under src/) constructs the body-less phase builder via
RequestBuilder::new keyed by the GET method. -/
def get (u : String) : RequestBuilder .withoutBody :=
  RequestBuilder.new .withoutBody "GET" u

/-- Modelled from the spec: the crate-root helper post (lib.rs is not
under src/) constructs the body-bearing phase builder via
RequestBuilder::new keyed by the POST method. -/
def post (u : String) : RequestBuilder .withBody :=
  RequestBuilder.new .withBody "POST" u

/-- RequestBuilder::header from src/request.rs: forwards to the http
builder, returning the builder for every input (an invalid name or
value is stored inside, not raised here). -/
def RequestBuilder.header {p : Phase} (rb : RequestBuilder p) (k v : String) :
    RequestBuilder p :=
  { builder := rb.builder.header k v }

/-- RequestBuilder::uri from src/request.rs: forwards to the http
builder. -/
def RequestBuilder.uri {p : Phase} (rb : RequestBuilder p) (u : String) :
    RequestBuilder p :=
  { builder := rb.builder.uri u }

/-- RequestBuilder::version from src/request.rs: forwards to the http
builder. -/
def RequestBuilder.version {p : Phase} (rb : RequestBuilder p) (v : Version) :
    RequestBuilder p :=
  { builder := rb.builder.version v }

/-- RequestBuilder::content_type from src/request.rs: sets the
content-type header through the shared header path. -/
def RequestBuilder.content_type (rb : RequestBuilder .withBody) (v : String) :
    RequestBuilder .withBody :=
  { builder := rb.builder.header "content-type" v }

/-- The stored, not yet surfaced validation error of a builder. -/
def RequestBuilder.pendingError {p : Phase} (rb : RequestBuilder p) : Option HttpError :=
  match rb.builder with
  | .error e => some e
  | .ok _ => none

/-- Modelled from the spec: SendBody::none (send_body.rs is not under
src/); a body-less terminal operation finalizes with an empty Body. -/
def SendBody.none : Body := Body.empty

/-- Result of a terminal operation: the outcome, the trace of execution
engine invocations (each with the request and body it was handed), and
the total number of network operations performed. -/
abbrev CallResult : Type := Except Error HttpResponse × List (Parts × Body) × Nat

/-- do_call from src/request.rs: hands the finalized request and body
to the engine exactly once (the Instant::now clock argument is
dropped by the model). -/
def do_call (engine : EngineM) (request : Parts) (body : Body) : CallResult :=
  ((engine request body).1, [(request, body)], (engine request body).2)

/-- RequestBuilder::call from src/request.rs (the body-less phase):
finalizes the http builder (surfacing any stored validation error as
Error::Http without invoking the engine) and delegates to do_call with
an empty body. -/
def RequestBuilder.call (rb : RequestBuilder .withoutBody) (engine : EngineM) :
    CallResult :=
  match rb.builder.toBody with
  | .error e => (.error (.Http e), [], 0)
  | .ok request => do_call engine request SendBody.none

/-- RequestBuilder::send from src/request.rs (the body-bearing phase):
finalizes the http builder (surfacing any stored validation error as
Error::Http without invoking the engine), converts the payload through
the conversion capability, and delegates to do_call. -/
def RequestBuilder.send (rb : RequestBuilder .withBody) (data : SendSource)
    (engine : EngineM) : CallResult :=
  match rb.builder.toBody with
  | .error e => (.error (.Http e), [], 0)
  | .ok request => do_call engine request data.as_body

/-- Structured payload values for send_json. -/
inductive JsonVal
  | str (s : String)
  | num (n : Int)
  | bool (b : Bool)
  | null
deriving DecidableEq, Repr

/-- Rendering of a structured payload to JSON text (string escaping is
out of scope of the claims). -/
def JsonVal.render : JsonVal → String
  | .str s => "\"" ++ s ++ "\""
  | .num n => toString n
  | .bool b => cond b "true" "false"
  | .null => "null"

/-- Modelled from the spec: SendBody::from_json (send_body.rs is not
under src/) serializes the value to a UTF-8 text payload carried in
the byte-buffer variant. -/
def SendBody.from_json (j : JsonVal) : Except Error Body :=
  .ok (Body.fromInner (.ByteSlice (utf8Bytes j.render)))

/-- RequestBuilder::send_json from src/request.rs: finalizes the http
builder, serializes the payload, and delegates to do_call. -/
def RequestBuilder.send_json (rb : RequestBuilder .withBody) (data : JsonVal)
    (engine : EngineM) : CallResult :=
  match rb.builder.toBody with
  | .error e => (.error (.Http e), [], 0)
  | .ok request =>
      match SendBody.from_json data with
      | .error e => (.error e, [], 0)
      | .ok body => do_call engine request body

/-- Modelled from the spec: the execution engine checks that the URI
carries a scheme and a host before any network activity, raising
BadUri otherwise (sections 4.4 and 6; Agent::do_run is not under
src/). -/
def do_run_check (p : Parts) : Option Error :=
  match p.uri.scheme, p.uri.host with
  | some _, some _ => none
  | _, _ => some (.BadUri p.uri.path)

/-- Modelled from the spec: the execution engine Agent::do_run (not
under src/) runs its URI precheck and only then performs network
operations, here abstracted as the net argument which reports how many
network operations it performed. -/
def agent_do_run (net : Parts → Body → Except Error HttpResponse × Nat) : EngineM :=
  fun p b =>
    match do_run_check p with
    | some e => (.error e, 0)
    | none => net p b

/-- The terminal operations each impl block of src/request.rs defines. -/
inductive TerminalOp
  | callOp
  | sendOp
  | sendJsonOp
deriving DecidableEq, Repr

/-- Availability table of terminal operations per phase, read off the
two impl blocks of src/request.rs: call is defined only in the
RequestBuilder WithoutBody impl, send and send_json only in the
RequestBuilder WithBody impl. -/
def availableOps : Phase → List TerminalOp
  | .withoutBody => [.callOp]
  | .withBody => [.sendOp, .sendJsonOp]

/-- Probe engine used in concrete scenarios: it rejects every request
with ConnectionFailed after performing one network operation, so a zero
in the network counter shows it was never reached. -/
def probeEngine : EngineM := fun _ _ => (.error .ConnectionFailed, 1)

/-- Classifier: the outcome is an error of the Http or BadUri class. -/
def isHttpOrBadUri : Except Error HttpResponse → Bool
  | .error (.Http _) => true
  | .error (.BadUri _) => true
  | _ => false

/-- Whether a URI string lacks a host under the URI parser model
(either it fails to parse, as a local-file-style URI does, or it parses
as a path-only URI with no host). -/
def lacksHost (s : String) : Bool :=
  match parseUri s with
  | .ok u => u.host.isNone
  | .error _ => true

/-- A builder whose http state holds a stored error surfaces it from
call as an Http error without invoking the engine. -/
theorem call_builder_error (rb : RequestBuilder .withoutBody) (e : HttpError)
    (h : rb.builder = .error e) (engine : EngineM) :
    rb.call engine = (.error (.Http e), [], 0) := by
  simp [RequestBuilder.call, HttpBuilder.toBody, h]

/-- A builder whose http state holds a stored error surfaces it from
send as an Http error without invoking the engine. -/
theorem send_builder_error (rb : RequestBuilder .withBody) (e : HttpError)
    (h : rb.builder = .error e) (data : SendSource) (engine : EngineM) :
    rb.send data engine = (.error (.Http e), [], 0) := by
  simp [RequestBuilder.send, HttpBuilder.toBody, h]

/-- A clean builder is one whose http state carries parts. -/
theorem pendingError_none {ph : Phase} (rb : RequestBuilder ph)
    (h : rb.pendingError = none) : ∃ p, rb.builder = .ok p := by
  cases hb : rb.builder with
  | error e => simp [RequestBuilder.pendingError, hb] at h
  | ok p => exact ⟨p, rfl⟩

/-- The http builder stores the invalid-name error. -/
theorem header_ok_invalid_name (p : Parts) (k v : String)
    (hk : validHeaderName k = false) :
    HttpBuilder.header (.ok p) k v = .error { msg := "invalid HTTP header name" } := by
  simp [HttpBuilder.header, hk]

/-- The http builder stores the invalid-value error. -/
theorem header_ok_invalid_value (p : Parts) (k v : String)
    (hk : validHeaderName k = true) (hv : validHeaderValue v = false) :
    HttpBuilder.header (.ok p) k v = .error { msg := "invalid HTTP header value" } := by
  simp [HttpBuilder.header, hk, hv]

/-- C1: the conversion of an Error into a generic I/O error is total
over every Error case (a total function of the full inductive); applied
to an Io case it returns the wrapped io error value unchanged, and
applied to any other case it returns a generic error of kind Other
whose message is exactly that case's display text. -/
theorem C1_into_io_spec :
    (∀ (e : IoError), (Error.Io e).into_io = e) ∧
    (∀ (e : Error), (∀ io2 : IoError, e ≠ Error.Io io2) →
      e.into_io = { kind := IoErrorKind.other, msg := e.display }) := by
  constructor
  · intro e; rfl
  · intro e h
    cases e <;> first | rfl | exact absurd rfl (h _)

/-- Witness for C1 at concrete inputs: an Io case passes its payload
through unchanged, and HostNotFound becomes an Other-kind error whose
message is its display text. -/
theorem C1_into_io_spec_witness :
    (Error.Io { kind := IoErrorKind.other, msg := "x" }).into_io
      = { kind := IoErrorKind.other, msg := "x" } ∧
    Error.HostNotFound.into_io = { kind := IoErrorKind.other, msg := "host not found" } :=
  ⟨C1_into_io_spec.1 { kind := IoErrorKind.other, msg := "x" },
   C1_into_io_spec.2 Error.HostNotFound (fun _ h => Error.noConfusion h)⟩

/-- C4: Body::empty is the zero-length byte-slice instance, and reading
it yields zero bytes, marks it exhausted on the very first read
attempt, and leaves the device store untouched (no underlying device is
accessed). -/
theorem C4_empty_body :
    Body.empty = { inner := BodyInner.ByteSlice [], ended := false } ∧
    (∀ (st : Store) (n : Nat),
      Body.empty.read st n
        = some ([], { inner := BodyInner.ByteSlice [], ended := true }, st)) := by
  refine ⟨rfl, fun st n => ?_⟩
  simp [Body.empty, Body.fromInner, Body.read]

/-- C8: the availability table read off the two impl blocks of
src/request.rs makes the body-less terminal operation reachable only in
the WithoutBody phase and the body-bearing ones only in the WithBody
phase; the two phases are distinct, and both phase tags are zero-size
(they carry no information). -/
theorem C8_phase_static_gating :
    TerminalOp.callOp ∈ availableOps Phase.withoutBody ∧
    TerminalOp.sendOp ∉ availableOps Phase.withoutBody ∧
    TerminalOp.sendJsonOp ∉ availableOps Phase.withoutBody ∧
    TerminalOp.sendOp ∈ availableOps Phase.withBody ∧
    TerminalOp.sendJsonOp ∈ availableOps Phase.withBody ∧
    TerminalOp.callOp ∉ availableOps Phase.withBody ∧
    Phase.withoutBody ≠ Phase.withBody ∧
    (∀ a b : WithoutBody, a = b) ∧
    (∀ a b : WithBody, a = b) := by
  refine ⟨by decide, by decide, by decide, by decide, by decide, by decide,
    by decide, ?_, ?_⟩
  · intro a b; obtain ⟨u⟩ := a; obtain ⟨u2⟩ := b; cases u; cases u2; rfl
  · intro a b; obtain ⟨u⟩ := a; obtain ⟨u2⟩ := b; cases u; cases u2; rfl

/-- C10: the display rendering of TimeoutReason maps each of the eight
variants to its fixed string, and the nine-element list starting with
the empty string has no duplicates, so every rendering is non-empty and
distinct variants render to distinct strings. -/
theorem C10_timeout_reason_display :
    TimeoutReason.display .Global = "global" ∧
    TimeoutReason.display .Resolver = "resolver" ∧
    TimeoutReason.display .OpenConnection = "open connection" ∧
    TimeoutReason.display .SendRequest = "send request" ∧
    TimeoutReason.display .SendBody = "send body" ∧
    TimeoutReason.display .Await100 = "await 100" ∧
    TimeoutReason.display .RecvResponse = "receive response" ∧
    TimeoutReason.display .RecvBody = "receive body" ∧
    List.Nodup ["", TimeoutReason.display .Global, TimeoutReason.display .Resolver,
      TimeoutReason.display .OpenConnection, TimeoutReason.display .SendRequest,
      TimeoutReason.display .SendBody, TimeoutReason.display .Await100,
      TimeoutReason.display .RecvResponse, TimeoutReason.display .RecvBody] := by
  refine ⟨rfl, rfl, rfl, rfl, rfl, rfl, rfl, rfl, by decide⟩

/-- C2 counterexample: a file passed by value is routed by the source
conversion to the borrowed streaming variant (every impl generated by
impl_into_body wraps a mutable borrow of self in BodyInner::Reader),
while the claim's routing table sends a by-value source to the owned
streaming variant; the two disagree at this input. -/
theorem C2_routing_counterexample :
    (SendSource.fileOwned 0).as_body.variant = VariantKind.borrowedStream ∧
    claimRouteSpec (SendSource.fileOwned 0) = VariantKind.ownedStream ∧
    (SendSource.fileOwned 0).as_body.variant ≠ claimRouteSpec (SendSource.fileOwned 0) := by
  exact ⟨rfl, rfl, by decide⟩

/-- C2 amended: the conversion capability is implemented for exactly
the enumerated closed set of sources; the byte and text forms (owned or
borrowed) produce the byte-buffer variant carrying exactly the source
bytes, and every streaming source (files, TCP sockets, standard input,
unix sockets, and the response-body placeholder), whether passed by
reference or by value, produces the borrowed streaming variant, the
conversion always borrowing the source mutably. -/
theorem C2_as_body_routing :
    (∀ s : SendSource,
      s.as_body.variant
        = (if s.isBufferSource then VariantKind.byteBuffer else VariantKind.borrowedStream) ∧
      s.as_body.ended = false) ∧
    (∀ s : SendSource, s.isBufferSource = true →
      s.as_body.inner = BodyInner.ByteSlice s.sourceBytes) := by
  constructor
  · intro s; cases s <;> exact ⟨rfl, rfl⟩
  · intro s h; cases s <;> first | rfl | exact Bool.noConfusion h

/-- Witness for C2 amended at concrete inputs: a borrowed str source
goes to the byte-buffer variant with its UTF-8 bytes. -/
theorem C2_as_body_routing_witness :
    (SendSource.strRef "hi").as_body.variant = VariantKind.byteBuffer ∧
    (SendSource.strRef "hi").as_body.inner = BodyInner.ByteSlice [104, 105] :=
  ⟨(C2_as_body_routing.1 (SendSource.strRef "hi")).1,
   C2_as_body_routing.2 (SendSource.strRef "hi") rfl⟩

/-- C9: the conversion of any source into a Body leaves the device
store untouched (no I/O, no pre-read: every device's read counter and
position are unchanged), and for a source backed by a device the first
read of the device happens only when the resulting Body is drained,
pulling the bytes from the position the device had at conversion time
and bumping its read counter then. -/
theorem C9_as_body_pure :
    (∀ (s : SendSource) (st : Store), (s.as_body_io st).2 = st) ∧
    (∀ (s : SendSource) (st : Store) (d : Nat) (n : Nat),
      s.deviceOf = some d →
      ∃ bytes b2 st2,
        Body.read (s.as_body_io st).1 st n = some (bytes, b2, st2) ∧
        bytes = ((st d).data.drop (st d).pos).take n ∧
        (st2 d).reads = (st d).reads + 1 ∧
        (st2 d).pos = (st d).pos + bytes.length) := by
  constructor
  · intro s st; rfl
  · intro s st d n hd
    cases s <;> simp [SendSource.deviceOf] at hd <;>
      · subst hd
        refine ⟨_, _, _, rfl, rfl, ?_, ?_⟩ <;>
          simp [SendSource.as_body_io, SendSource.as_body, Body.fromInner, Body.read,
            readDevice]

/-- Witness for C9 at a concrete device store holding three bytes with
the read position already at one. -/
def c9store : Store := fun _ => { data := [9, 8, 7], pos := 1, reads := 0 }

/-- Witness for C9: converting a borrowed file touches no device, and
the first read of the converted Body pulls from position one and bumps
the read counter. -/
theorem C9_as_body_pure_witness :
    ((SendSource.fileRef 0).as_body_io c9store).2 = c9store ∧
    (∃ bytes b2 st2,
      Body.read ((SendSource.fileRef 0).as_body_io c9store).1 c9store 2
        = some (bytes, b2, st2) ∧
      bytes = ((c9store 0).data.drop (c9store 0).pos).take 2 ∧
      (st2 0).reads = (c9store 0).reads + 1 ∧
      (st2 0).pos = (c9store 0).pos + bytes.length) :=
  ⟨C9_as_body_pure.1 (SendSource.fileRef 0) c9store,
   C9_as_body_pure.2 (SendSource.fileRef 0) c9store 0 2 rfl⟩

/-- C3 counterexample: supplying an invalid header name does not raise
the message-construction error at that call site; the header operation
completes and returns a builder that merely stores the error (further
builder operations still proceed on it), and the error value is
surfaced only by the terminal operation, which does return it before
the engine is invoked (empty invocation trace). -/
theorem C3_deferred_validation_counterexample :
    ((get "http://example.test/").header "bad name" "v").pendingError
      = some { msg := "invalid HTTP header name" } ∧
    (((get "http://example.test/").header "bad name" "v").version Version.http10).pendingError
      = some { msg := "invalid HTTP header name" } ∧
    (((get "http://example.test/").header "bad name" "v").call probeEngine).1
      = .error (.Http { msg := "invalid HTTP header name" }) ∧
    (((get "http://example.test/").header "bad name" "v").call probeEngine).2.1 = [] := by
  exact ⟨by decide, by decide, by decide, by decide⟩

/-- C3 amended: a header, URI or content-type value that fails
validation is recorded as a message-construction error in the builder
at the supplying call, and the terminal operation returns it as an
Http-class error with an empty engine-invocation trace, so the error
always surfaces before the execution engine is invoked (version values
are typed and cannot fail validation). -/
theorem C3_validation_before_engine :
    (∀ (rb : RequestBuilder .withoutBody) (k v : String) (engine : EngineM),
      rb.pendingError = none →
      (validHeaderName k && validHeaderValue v) = false →
      ∃ e, ((rb.header k v).call engine).1 = .error (.Http e) ∧
        ((rb.header k v).call engine).2.1 = []) ∧
    (∀ (rb : RequestBuilder .withoutBody) (u : String) (e0 : HttpError) (engine : EngineM),
      rb.pendingError = none → parseUri u = .error e0 →
      ((rb.uri u).call engine).1 = .error (.Http e0) ∧
      ((rb.uri u).call engine).2.1 = []) ∧
    (∀ (rb : RequestBuilder .withBody) (v : String) (data : SendSource) (engine : EngineM),
      rb.pendingError = none → validHeaderValue v = false →
      ∃ e, ((rb.content_type v).send data engine).1 = .error (.Http e) ∧
        ((rb.content_type v).send data engine).2.1 = []) := by
  refine ⟨?_, ?_, ?_⟩
  · intro rb k v engine hnone hval
    obtain ⟨p, hp⟩ := pendingError_none rb hnone
    cases hk : validHeaderName k with
    | false =>
      have hb : (rb.header k v).builder = .error { msg := "invalid HTTP header name" } := by
        show rb.builder.header k v = _
        rw [hp, header_ok_invalid_name p k v hk]
      rw [call_builder_error _ _ hb engine]
      exact ⟨_, rfl, rfl⟩
    | true =>
      have hv : validHeaderValue v = false := by
        cases hvv : validHeaderValue v
        · rfl
        · rw [hk, hvv] at hval; cases hval
      have hb : (rb.header k v).builder = .error { msg := "invalid HTTP header value" } := by
        show rb.builder.header k v = _
        rw [hp, header_ok_invalid_value p k v hk hv]
      rw [call_builder_error _ _ hb engine]
      exact ⟨_, rfl, rfl⟩
  · intro rb u e0 engine hnone hu
    obtain ⟨p, hp⟩ := pendingError_none rb hnone
    have hb : (rb.uri u).builder = .error e0 := by
      show rb.builder.uri u = _
      rw [hp]
      simp [HttpBuilder.uri, hu]
    rw [call_builder_error _ _ hb engine]
    exact ⟨rfl, rfl⟩
  · intro rb v data engine hnone hv
    obtain ⟨p, hp⟩ := pendingError_none rb hnone
    have hb : (rb.content_type v).builder = .error { msg := "invalid HTTP header value" } := by
      show rb.builder.header "content-type" v = _
      rw [hp, header_ok_invalid_value p "content-type" v (by decide) hv]
    rw [send_builder_error _ _ hb data engine]
    exact ⟨_, rfl, rfl⟩

/-- Witness for C3 amended at concrete inputs: a header name with a
space, a local-file-style URI, and a content-type value with a control
character each surface an Http error from the terminal operation with
an empty engine trace. -/
theorem C3_validation_before_engine_witness :
    (∃ e, (((get "http://example.test/").header "bad name" "v").call probeEngine).1
        = .error (.Http e) ∧
      (((get "http://example.test/").header "bad name" "v").call probeEngine).2.1 = []) ∧
    (((get "http://example.test/").uri "file:///x").call probeEngine).1
      = .error (.Http { msg := "invalid format" }) ∧
    (((get "http://example.test/").uri "file:///x").call probeEngine).2.1 = [] ∧
    (∃ e, (((post "http://example.test/post").content_type "a\x01b").send
          (.strRef "hello") probeEngine).1 = .error (.Http e) ∧
      (((post "http://example.test/post").content_type "a\x01b").send
          (.strRef "hello") probeEngine).2.1 = []) := by
  refine ⟨?_, ?_, ?_, ?_⟩
  · exact C3_validation_before_engine.1 (get "http://example.test/") "bad name" "v"
      probeEngine (by decide) (by decide)
  · exact (C3_validation_before_engine.2.1 (get "http://example.test/") "file:///x"
      { msg := "invalid format" } probeEngine (by decide) (by decide)).1
  · exact (C3_validation_before_engine.2.1 (get "http://example.test/") "file:///x"
      { msg := "invalid format" } probeEngine (by decide) (by decide)).2
  · exact C3_validation_before_engine.2.2 (post "http://example.test/post") "a\x01b"
      (.strRef "hello") probeEngine (by decide) (by decide)

/-- C5 counterexample: for a path-only URI with no host the builder
finalizes (the http crate accepts path-only URIs), so call does invoke
the execution engine once (the engine's URI precheck then raises
BadUri before any network operation), refuting the claim that the
engine is not invoked for every host-less URI. -/
theorem C5_engine_invoked_counterexample :
    ((get "/some/path").call (agent_do_run probeEngine)).2.1.length = 1 ∧
    ((get "/some/path").call (agent_do_run probeEngine)).1 = .error (.BadUri "/some/path") ∧
    ((get "/some/path").call (agent_do_run probeEngine)).2.2 = 0 := by
  exact ⟨by decide, by decide, by decide⟩

/-- C5 amended: call on a WithoutBody builder whose URI lacks a host
never panics, performs no network activity, and fails with the
Http/BadUri class of error: a URI rejected by the http parser (such as
a local-file-style URI) surfaces as an Http error with the engine never
invoked, and a parseable host-less URI surfaces as BadUri from the
engine's precheck with zero network operations. -/
theorem C5_no_host_no_network :
    ∀ (s : String) (net : Parts → Body → Except Error HttpResponse × Nat),
      lacksHost s = true →
      isHttpOrBadUri ((get s).call (agent_do_run net)).1 = true ∧
      ((get s).call (agent_do_run net)).2.2 = 0 := by
  intro s net h
  unfold lacksHost at h
  cases hp : parseUri s with
  | error e =>
    have hb : (get s).builder = .error e := by
      simp [get, RequestBuilder.new, HttpBuilder.method, HttpBuilder.uri, hp]
    rw [call_builder_error _ _ hb]
    exact ⟨rfl, rfl⟩
  | ok u =>
    rw [hp] at h
    have hhost : u.host = none := by
      simp only [Option.isNone_iff_eq_none] at h
      exact h
    have hb : (get s).builder
        = .ok { method := "GET", uri := u, version := .http11, headers := [] } := by
      simp [get, RequestBuilder.new, HttpBuilder.method, HttpBuilder.uri, defaultParts, hp]
    cases hs : u.scheme <;>
      simp [RequestBuilder.call, HttpBuilder.toBody, hb, do_call, SendBody.none,
        agent_do_run, do_run_check, hhost, hs, isHttpOrBadUri]

/-- Witness for C5 amended at the local-file-style URI of the in-repo
test disallow_empty_host. -/
theorem C5_no_host_no_network_witness :
    isHttpOrBadUri ((get "file:///some/path").call (agent_do_run probeEngine)).1 = true ∧
    ((get "file:///some/path").call (agent_do_run probeEngine)).2.2 = 0 :=
  C5_no_host_no_network "file:///some/path" probeEngine (by decide)

/-- C6: the post content-type send scenario hands the execution engine
exactly one invocation, whose request carries the single header
content-type text/plain on method POST at the parsed target, and whose
body is the byte-buffer variant holding exactly the five UTF-8 bytes
of hello; the outcome is whatever that single invocation returns. -/
theorem C6_post_send_scenario :
    ∀ engine : EngineM,
      (((post "http://example.test/post").content_type "text/plain").send
          (.strRef "hello") engine).2.1
        = [({ method := "POST"
              uri := { scheme := some "http", host := some "example.test", path := "/post" }
              version := Version.http11
              headers := [("content-type", "text/plain")] },
            { inner := BodyInner.ByteSlice (utf8Bytes "hello"), ended := false })] ∧
      utf8Bytes "hello" = [104, 101, 108, 108, 111] ∧
      (utf8Bytes "hello").length = 5 ∧
      (((post "http://example.test/post").content_type "text/plain").send
          (.strRef "hello") engine).1
        = (engine { method := "POST"
                    uri := { scheme := some "http", host := some "example.test", path := "/post" }
                    version := Version.http11
                    headers := [("content-type", "text/plain")] }
            { inner := BodyInner.ByteSlice (utf8Bytes "hello"), ended := false }).1 := by
  intro engine
  exact ⟨rfl, by decide, by decide, rfl⟩

/-- Witness for C6 at the concrete probe engine: the single recorded
invocation carries the expected request and body. -/
theorem C6_post_send_scenario_witness :
    (((post "http://example.test/post").content_type "text/plain").send
        (.strRef "hello") probeEngine).2.1
      = [({ method := "POST"
            uri := { scheme := some "http", host := some "example.test", path := "/post" }
            version := Version.http11
            headers := [("content-type", "text/plain")] },
          { inner := BodyInner.ByteSlice (utf8Bytes "hello"), ended := false })] ∧
    (utf8Bytes "hello").length = 5 :=
  ⟨(C6_post_send_scenario probeEngine).1, (C6_post_send_scenario probeEngine).2.2.1⟩

/-- C7: the terminal operations never retry (at most one engine
invocation on any builder, exactly one on a clean builder), and for
every error value the engine returns from that single invocation the
operation returns exactly that error value, unchanged. -/
theorem C7_forward_errors_single_attempt :
    (∀ (rb : RequestBuilder .withoutBody) (engine : EngineM),
      ((rb.call engine).2.1).length ≤ 1) ∧
    (∀ (rb : RequestBuilder .withBody) (data : SendSource) (engine : EngineM),
      ((rb.send data engine).2.1).length ≤ 1) ∧
    (∀ (rb : RequestBuilder .withBody) (data : JsonVal) (engine : EngineM),
      ((rb.send_json data engine).2.1).length ≤ 1) ∧
    (∀ (rb : RequestBuilder .withoutBody) (p : Parts) (e : Error),
      rb.builder = .ok p →
      rb.call (fun _ _ => (.error e, 0)) = (.error e, [(p, SendBody.none)], 0)) ∧
    (∀ (rb : RequestBuilder .withBody) (p : Parts) (e : Error) (data : SendSource),
      rb.builder = .ok p →
      rb.send data (fun _ _ => (.error e, 0)) = (.error e, [(p, data.as_body)], 0)) ∧
    (∀ (rb : RequestBuilder .withBody) (p : Parts) (e : Error) (data : JsonVal),
      rb.builder = .ok p →
      ∃ body, rb.send_json data (fun _ _ => (.error e, 0)) = (.error e, [(p, body)], 0)) := by
  refine ⟨?_, ?_, ?_, ?_, ?_, ?_⟩
  · intro rb engine
    cases hb : rb.builder <;>
      simp [RequestBuilder.call, HttpBuilder.toBody, hb, do_call]
  · intro rb data engine
    cases hb : rb.builder <;>
      simp [RequestBuilder.send, HttpBuilder.toBody, hb, do_call]
  · intro rb data engine
    cases hb : rb.builder <;>
      simp [RequestBuilder.send_json, HttpBuilder.toBody, hb, SendBody.from_json, do_call]
  · intro rb p e hb
    simp [RequestBuilder.call, HttpBuilder.toBody, hb, do_call]
  · intro rb p e data hb
    simp [RequestBuilder.send, HttpBuilder.toBody, hb, do_call]
  · intro rb p e data hb
    exact ⟨Body.fromInner (.ByteSlice (utf8Bytes data.render)),
      by simp [RequestBuilder.send_json, HttpBuilder.toBody, hb,
        SendBody.from_json, do_call]⟩

/-- Witness for C7 at a clean concrete builder and a concrete engine
error: call forwards HostNotFound unchanged with a single invocation. -/
theorem C7_forward_errors_single_attempt_witness :
    (get "http://example.test/").call (fun _ _ => (.error Error.HostNotFound, 0))
      = (.error Error.HostNotFound,
         [({ method := "GET"
             uri := { scheme := some "http", host := some "example.test", path := "/" }
             version := Version.http11
             headers := [] }, SendBody.none)], 0) :=
  C7_forward_errors_single_attempt.2.2.2.1 (get "http://example.test/")
    { method := "GET"
      uri := { scheme := some "http", host := some "example.test", path := "/" }
      version := Version.http11
      headers := [] } Error.HostNotFound (by decide)

end Ureq
